import Mathlib

/-!
Verification of the `python-sonoffdiy` client library core: the domain
model normalizer (`Info.from_dict` in `models.py`), the error taxonomy
(`ERROR_CODES` in `const.py`), the protocol client (`SonoffDIY._request`
in `sonoffdiy.py`) and the device facade operations (`update_info`,
`power_on_state`, `pulse_width`).

The embedding is shallow: JSON values are an inductive type, the HTTP
transport outcome is an explicit input, Python exceptions become an
error type on `Except`, and the facade's mutable `self.info` field is
threaded as explicit state.  A list of `SentRequest`s records which
network calls an operation issues, in order.
-/

/-- JSON values, as produced by Python's `json.loads` on device
responses.  Numbers are modelled as integers: the device protocol only
carries integral numbers. -/
inductive Json where
  | null : Json
  | bool (b : Bool) : Json
  | num (n : Int) : Json
  | str (s : String) : Json
  | arr (elems : List Json) : Json
  | obj (members : List (String × Json)) : Json

/-- Python `value == some_string` for a JSON value: true exactly when
the value is that string (Python `==` across types is `False`). -/
def Json.eqStr : Json → String → Bool
  | .str s, t => s == t
  | _, _ => false

/-- Lookup of a key in a JSON object's member list (Python `dict`
access; keys of a Python dict are unique, so first match suffices). -/
def jLookup (members : List (String × Json)) (k : String) : Option Json :=
  (members.find? (fun kv => kv.1 == k)).map (fun kv => kv.2)

/-- Python `dict.get(k, default)`. -/
def jGet (members : List (String × Json)) (k : String) (default : Json) : Json :=
  (jLookup members k).getD default

/-- Python `dict.update`: values of keys present in `upd` override those
in `base` (in place, keeping `base`'s order); new keys are appended. -/
def dictUpdate (base upd : List (String × Json)) : List (String × Json) :=
  base.map (fun kv =>
    match jLookup upd kv.1 with
    | some v => (kv.1, v)
    | none => kv)
  ++ upd.filter (fun kv => (jLookup base kv.1).isNone)

/-- Escape a character for inclusion in a JSON string literal. -/
def jsonEscapeChar (c : Char) : String :=
  if c = '"' then "\\\""
  else if c = '\\' then "\\\\"
  else if c = '\n' then "\\n"
  else if c = '\t' then "\\t"
  else if c = '\r' then "\\r"
  else String.singleton c

/-- Escape a string for inclusion in a JSON document. -/
def jsonEscape (s : String) : String :=
  String.join (s.data.map jsonEscapeChar)

mutual

/-- Serialize a JSON value (inverse direction of `json.loads`; used to
build concrete response bodies for tests of the parser path). -/
def Json.render : Json → String
  | .null => "null"
  | .bool true => "true"
  | .bool false => "false"
  | .num n => toString n
  | .str s => "\"" ++ jsonEscape s ++ "\""
  | .arr es => "[" ++ Json.renderElems es ++ "]"
  | .obj ms => "\x7b" ++ Json.renderMembers ms ++ "\x7d"

def Json.renderElems : List Json → String
  | [] => ""
  | [e] => Json.render e
  | e :: rest => Json.render e ++ ", " ++ Json.renderElems rest

def Json.renderMembers : List (String × Json) → String
  | [] => ""
  | [(k, v)] => "\"" ++ k ++ "\": " ++ Json.render v
  | (k, v) :: rest => "\"" ++ k ++ "\": " ++ Json.render v ++ ", " ++ Json.renderMembers rest

end

/-- Whitespace in the JSON grammar. -/
def jsonWs (c : Char) : Bool :=
  c = ' ' ∨ c = '\n' ∨ c = '\t' ∨ c = '\r'

/-- Skip leading whitespace. -/
def skipWs : List Char → List Char
  | [] => []
  | c :: cs => if jsonWs c then skipWs cs else c :: cs

/-- Parse the characters of a JSON string after the opening quote,
handling the common escapes.  Returns the string and the rest of the
input after the closing quote. -/
def parseStrChars : List Char → Option (String × List Char)
  | [] => none
  | c :: cs =>
    if c = '"' then some ("", cs)
    else if c = '\\' then
      match cs with
      | [] => none
      | e :: cs' =>
        let dec : Option Char :=
          if e = '"' then some '"'
          else if e = '\\' then some '\\'
          else if e = '/' then some '/'
          else if e = 'n' then some '\n'
          else if e = 't' then some '\t'
          else if e = 'r' then some '\r'
          else none
        match dec with
        | none => none
        | some d =>
          match parseStrChars cs' with
          | some (s, rest) => some (⟨d :: s.data⟩, rest)
          | none => none
    else
      match parseStrChars cs with
      | some (s, rest) => some (⟨c :: s.data⟩, rest)
      | none => none

/-- Parse a run of decimal digits. -/
def parseDigits : List Char → Nat → List Char → Option (Nat × List Char)
  | [], acc, orig =>
    if orig.isEmpty then none else some (acc, [])
  | c :: cs, acc, orig =>
    if c.isDigit then parseDigits cs (acc * 10 + (c.toNat - 48)) (orig ++ [c])
    else if orig.isEmpty then none else some (acc, c :: cs)

/-- Does the input start with the given literal? Return the rest. -/
def stripLit : List Char → List Char → Option (List Char)
  | [], cs => some cs
  | _, [] => none
  | l :: ls, c :: cs => if l = c then stripLit ls cs else none

mutual

/-- Recursive-descent JSON value parser (fuel-indexed model of Python's
`json.loads` grammar, restricted to integral numbers). -/
def parseVal : Nat → List Char → Option (Json × List Char)
  | 0, _ => none
  | fuel + 1, cs =>
    match skipWs cs with
    | [] => none
    | c :: cs' =>
      if c = '"' then
        match parseStrChars cs' with
        | some (s, rest) => some (.str s, rest)
        | none => none
      else if c = '-' then
        match parseDigits cs' 0 [] with
        | some (n, rest) => some (.num (-(n : Int)), rest)
        | none => none
      else if c.isDigit then
        match parseDigits (c :: cs') 0 [] with
        | some (n, rest) => some (.num (n : Int), rest)
        | none => none
      else if c = '[' then
        match skipWs cs' with
        | ']' :: rest => some (.arr [], rest)
        | cs'' =>
          match parseElems fuel cs'' with
          | some (es, rest) => some (.arr es, rest)
          | none => none
      else if c = '\x7b' then
        match skipWs cs' with
        | '\x7d' :: rest => some (.obj [], rest)
        | cs'' =>
          match parseMembers fuel cs'' with
          | some (ms, rest) => some (.obj ms, rest)
          | none => none
      else if c = 'n' then
        (stripLit ['u', 'l', 'l'] cs').map (fun rest => (Json.null, rest))
      else if c = 't' then
        (stripLit ['r', 'u', 'e'] cs').map (fun rest => (Json.bool true, rest))
      else if c = 'f' then
        (stripLit ['a', 'l', 's', 'e'] cs').map (fun rest => (Json.bool false, rest))
      else none

/-- Parse a nonempty comma-separated list of array elements, up to and
including the closing bracket. -/
def parseElems : Nat → List Char → Option (List Json × List Char)
  | 0, _ => none
  | fuel + 1, cs =>
    match parseVal fuel cs with
    | none => none
    | some (v, rest) =>
      match skipWs rest with
      | ',' :: rest' =>
        match parseElems fuel rest' with
        | some (es, rest'') => some (v :: es, rest'')
        | none => none
      | ']' :: rest' => some ([v], rest')
      | _ => none

/-- Parse a nonempty comma-separated list of object members, up to and
including the closing brace. -/
def parseMembers : Nat → List Char → Option (List (String × Json) × List Char)
  | 0, _ => none
  | fuel + 1, cs =>
    match skipWs cs with
    | '"' :: cs' =>
      match parseStrChars cs' with
      | none => none
      | some (k, rest) =>
        match skipWs rest with
        | ':' :: rest' =>
          match parseVal fuel rest' with
          | none => none
          | some (v, rest'') =>
            match skipWs rest'' with
            | ',' :: rest3 =>
              match parseMembers fuel rest3 with
              | some (ms, rest4) => some ((k, v) :: ms, rest4)
              | none => none
            | '\x7d' :: rest3 => some ([(k, v)], rest3)
            | _ => none
        | _ => none
    | _ => none

end

/-- Model of Python's `json.loads`: parse a full JSON document; `none`
models `json.JSONDecodeError`. -/
def Json.parse (s : String) : Option Json :=
  match parseVal (s.data.length + 1) s.data with
  | some (v, rest) => if (skipWs rest).isEmpty then some v else none
  | none => none

/-! ## Constants (`const.py`) -/

def STATE_OFF : String := "off"
def STATE_ON : String := "on"
def STATE_RESTORE : String := "restore"
def STATE_STAY : String := "stay"

/-- The static error-code table `ERROR_CODES` of `const.py`. -/
def ERROR_CODES : List (Int × String) :=
  [ (400, "Request body is not valid JSON"),
    (401, "Unauthorized request"),
    (403, "OTA function is locked"),
    (404, "Device does not support requested Device ID"),
    (408, "Timeout while downloading firmware"),
    (413, "OTA firmware exceeds device allowed size limit"),
    (422, "Invalid request parameters"),
    (424, "Firmware download failed"),
    (471, "Firmware integrity check failed"),
    (500, "Device ID or API key is not authorized by vendor's OTA service"),
    (503, "Could not connect to vendor's OTA unlock service") ]

/-- Python `ERROR_CODES.get(code, "Unknown error occurred")`: the error
taxonomy's describe operation, total by construction. -/
def describeErrorCode (code : Int) : String :=
  (ERROR_CODES.lookup code).getD "Unknown error occurred"

/-! ## Domain model normalizer (`models.py`) -/

/-- The `Info` value object of `models.py`.  Fields whose values Python
merely copies from the raw mapping (attrs performs no runtime coercion)
keep type `Json`; fields the code computes (`on`, `pulse`,
`signal_strength_percentage`) get their computed types. -/
structure Info where
  device_id : String
  «on» : Bool
  ota_unlock : Json
  power_on_state : Json
  pulse_width : Json
  pulse : Bool
  signal_strength_percentage : Int
  signal_strength : Json
  ssid : Json

/-- The signal-strength percentage computation inlined in
`Info.from_dict` (`models.py` lines 26-32). -/
def signalStrengthPercentage (dbm : Int) : Int :=
  if dbm ≤ -100 then 0
  else if dbm ≥ -50 then 100
  else 2 * (dbm + 100)

/-- A JSON value usable as the left operand of Python's `<=`/`>=`
against an integer: integers themselves, and booleans (Python `bool`
is an `int`).  Any other value raises `TypeError` there. -/
def Json.asPyInt : Json → Option Int
  | .num n => some n
  | .bool b => some (if b then 1 else 0)
  | _ => none

/-- Model of `Info.from_dict(device_id, data)` of `models.py`.  Returns `none`
when Python would raise `TypeError` (a non-numeric `signalStrength`
value reaching the `<= -100` comparison). -/
def Info.from_dict (device_id : String) (data : List (String × Json)) : Option Info :=
  match (jGet data "signalStrength" (Json.num (-100))).asPyInt with
  | none => none
  | some ss =>
    some
      { device_id := device_id
        «on» := (jGet data "switch" Json.null).eqStr STATE_ON
        ota_unlock := jGet data "otaUnlock" (Json.bool false)
        power_on_state :=
          if (jGet data "startup" (Json.str STATE_OFF)).eqStr STATE_STAY
          then Json.str STATE_RESTORE
          else jGet data "startup" (Json.str STATE_OFF)
        pulse_width := jGet data "pulseWidth" (Json.num 0)
        pulse := (jGet data "pulse" Json.null).eqStr STATE_ON
        signal_strength_percentage := signalStrengthPercentage ss
        signal_strength := jGet data "signalStrength" (Json.num (-100))
        ssid := jGet data "ssid" (Json.str "") }

/-! ## Protocol client (`SonoffDIY._request`, `sonoffdiy.py`) -/

/-- Python exception outcomes of `_request` and its callers.  Only the
first two are (subclasses of) `SonoffDIYError`; `jsonDecode` models
`json.JSONDecodeError` and `pyTypeError` models `TypeError` /
`AttributeError`, which `except SonoffDIYError` clauses do not catch. -/
inductive PyErr where
  | connection (msg : String)
  | protocol (msg : String)
  | jsonDecode
  | pyTypeError
deriving DecidableEq

/-- Which exceptions an `except SonoffDIYError` clause catches
(`SonoffDIYConnectionError` is a subclass of `SonoffDIYError`). -/
def PyErr.isSonoffDIYError : PyErr → Bool
  | .connection _ => true
  | .protocol _ => true
  | .jsonDecode => false
  | .pyTypeError => false

/-- Python `response_data["error"] != 0` (booleans compare as 0/1; any
non-numeric value is unequal to 0). -/
def Json.pyNeZero : Json → Bool
  | .num n => n != 0
  | .bool b => b
  | _ => true

/-- Python `ERROR_CODES.get(value, "Unknown error occurred")` for the raw JSON
error value: only integers can hit the table (a boolean hashes like 0/1,
neither of which is a key). -/
def describeErrorValue : Json → String
  | .num n => describeErrorCode n
  | _ => "Unknown error occurred"

/-- Returning a parsed `data` value from Python: the JSON value `null`
is Python `None`, indistinguishable from "no data" for callers. -/
def pyOptional : Json → Option Json
  | .null => none
  | v => some v

/-- Does the needle occur at some position of the haystack? -/
def listContainsSub : List Char → List Char → Bool
  | needle, [] => needle.isEmpty
  | needle, c :: cs => needle.isPrefixOf (c :: cs) || listContainsSub needle cs

/-- Substring containment, Python's `needle in hay` on strings. -/
def strContains (hay needle : String) : Bool :=
  listContainsSub needle.data hay.data

/-- The HTTP response the transport delivered to `_request`. -/
structure HttpResponse where
  status : Nat
  contentType : String
  body : String

/-- Outcome of the `session.request` exchange: a timeout
(`asyncio.TimeoutError`), a transport-level client error
(`aiohttp.ClientError` / `socket.gaierror`), or a delivered response. -/
inductive Transport where
  | timeout
  | clientError
  | response (r : HttpResponse)

/-- The envelope-interpretation half of `_request` (`sonoffdiy.py` lines
99-112), applied to the parsed response body.  On a non-dict body,
Python's `"error" not in response_data` membership test either raises
`TypeError` (numbers, booleans, `None`) or succeeds vacuously (lists,
strings) before the subscription `response_data["error"]` raises. -/
def handleEnvelope : Json → Except PyErr (Option Json)
  | .obj fields =>
    match jLookup fields "error" with
    | none => .error (.protocol "Unexpected response from Sonoff DIY device")
    | some e =>
      if e.pyNeZero then .error (.protocol (describeErrorValue e))
      else
        match jLookup fields "data" with
        | none => .ok none
        | some (.str s) =>
          match Json.parse s with
          | none => .error .jsonDecode
          | some d => .ok (pyOptional d)
        | some v => .ok (pyOptional v)
  | .arr es =>
    if es.any (fun v => v.eqStr "error") then .error .pyTypeError
    else .error (.protocol "Unexpected response from Sonoff DIY device")
  | .str s =>
    if strContains s "error" then .error .pyTypeError
    else .error (.protocol "Unexpected response from Sonoff DIY device")
  | _ => .error .pyTypeError

/-- Model of `SonoffDIY._request` as a function of the transport outcome.
`response.raise_for_status()` raises `aiohttp.ClientResponseError`
exactly for status `>= 400`; that lands in the same `except` clause as
other client errors.  Then the declared content type must contain
"application/json", the body is parsed as JSON (`response.json()`;
failure is a `json.JSONDecodeError`), and the envelope is interpreted
by `handleEnvelope`. -/
def sonoffRequest : Transport → Except PyErr (Option Json)
  | .timeout =>
    .error (.connection "Timeout occurred while connecting to Sonoff DIY device")
  | .clientError =>
    .error (.connection "Error occurred while communicating with Sonoff DIY device")
  | .response r =>
    if 400 ≤ r.status then
      .error (.connection "Error occurred while communicating with Sonoff DIY device")
    else if ¬ strContains r.contentType "application/json" then
      .error (.protocol "Unexpected response from Sonoff DIY device")
    else
      match Json.parse r.body with
      | none => .error .jsonDecode
      | some body => handleEnvelope body

/-! ## Device facade (`SonoffDIY`, `sonoffdiy.py`) -/

/-- A network request a facade operation issued: the sub-path under
`/zeroconf/` and the `data` payload of the request body. -/
structure SentRequest where
  uri : String
  data : List (String × Json)

def infoRequest : SentRequest := ⟨"info", []⟩

def signalStrengthRequest : SentRequest := ⟨"signal_strength", []⟩

/-- Python `data.update(signal_strength)` followed by handing the dict to
`Info.from_dict`: `none` models the uncaught exception Python raises
when the info `data` is not a dict (`AttributeError` on `.update` /
`.get`) or the signal payload cannot update a dict. -/
def mergeInfoData (d : Json) (signal : Option Json) : Option (List (String × Json)) :=
  match d, signal with
  | .obj fs, none => some fs
  | .obj fs, some (.obj sfs) => some (dictUpdate fs sfs)
  | _, _ => none

/-- Model of `SonoffDIY.update_info`: issues "info" then "signal_strength",
clears `self.info` and re-raises when either `_request` raises a
`SonoffDIYError`, raises "no data" when the info call carried no data,
otherwise merges the payloads, normalizes and caches the snapshot.
Exceptions outside the `SonoffDIYError` family escape the `except`
clause, leaving `self.info` untouched.  Returns the requests issued,
the new `self.info`, and the result. -/
def SonoffDIY.update_info (device_id : String) (st : Option Info)
    (tInfo tSignal : Transport) :
    List SentRequest × Option Info × Except PyErr Info :=
  match sonoffRequest tInfo with
  | .error e =>
    ([infoRequest], if e.isSonoffDIYError then none else st, .error e)
  | .ok data =>
    match sonoffRequest tSignal with
    | .error e =>
      ([infoRequest, signalStrengthRequest],
        if e.isSonoffDIYError then none else st, .error e)
    | .ok signal =>
      match data with
      | none =>
        ([infoRequest, signalStrengthRequest], none,
          .error (.protocol "Did not receive data from Sonoff DIY device"))
      | some d =>
        match mergeInfoData d signal with
        | none => ([infoRequest, signalStrengthRequest], st, .error .pyTypeError)
        | some fields =>
          match Info.from_dict device_id fields with
          | none => ([infoRequest, signalStrengthRequest], st, .error .pyTypeError)
          | some i => ([infoRequest, signalStrengthRequest], some i, .ok i)

/-- Model of `SonoffDIY.power_on_state`: validates the state against the tuple
`(STATE_ON, STATE_OFF, STATE_RESTORE, STATE_STAY)`, translates
`restore` to the vendor token `stay`, and sends "startup".  On
validation failure no request is issued. -/
def SonoffDIY.power_on_state (state : String) (t : Transport) :
    List SentRequest × Except PyErr Unit :=
  if state = STATE_ON ∨ state = STATE_OFF ∨ state = STATE_RESTORE ∨ state = STATE_STAY then
    let wire := if state = STATE_RESTORE then STATE_STAY else state
    ([⟨"startup", [("startup", Json.str wire)]⟩],
      (sonoffRequest t).map (fun _ => ()))
  else
    ([], .error (.protocol "Invalid startup value, accepted: on, off, restore"))

/-- Model of `SonoffDIY.pulse_width`: refreshes the snapshot via `update_info`
(propagating its failures without issuing the "pulse" request), then
sends "pulse" with the current pulse enablement and the requested
width. -/
def SonoffDIY.pulse_width (device_id : String) (st : Option Info)
    (tInfo tSignal tPulse : Transport) (pulse_width : Int) :
    List SentRequest × Option Info × Except PyErr Unit :=
  match SonoffDIY.update_info device_id st tInfo tSignal with
  | (reqs, newSt, .error e) => (reqs, newSt, .error e)
  | (reqs, newSt, .ok _) =>
    let pulse := if (match newSt with | some i => i.pulse | none => false)
      then STATE_ON else STATE_OFF
    (reqs ++ [⟨"pulse", [("pulse", Json.str pulse), ("pulse_width", Json.num pulse_width)]⟩],
      newSt, (sonoffRequest tPulse).map (fun _ => ()))

/-! ## Concrete values used as test inputs -/

/-- A previously cached snapshot (an arbitrary well-formed `Info`). -/
def dummyInfo : Info :=
  { device_id := "dev", «on» := false, ota_unlock := Json.bool false
    power_on_state := Json.str "off", pulse_width := Json.num 0
    pulse := false, signal_strength_percentage := 0
    signal_strength := Json.num (-100), ssid := Json.str "" }

/-- A success envelope whose `data` is a double-encoded JSON object. -/
def doubleEncodedOkBody : String :=
  Json.render (Json.obj
    [("seq", Json.num 26), ("error", Json.num 0),
     ("data", Json.str (Json.render (Json.obj [("test", Json.str "ok")])))])

/-- A success envelope whose `data` string is not valid JSON (the
single character `\x7b`). -/
def malformedDataBody : String :=
  Json.render (Json.obj [("error", Json.num 0), ("data", Json.str "\x7b")])

/-- A success envelope carrying no `data` field at all. -/
def noDataOkBody : String :=
  Json.render (Json.obj [("seq", Json.num 2), ("error", Json.num 0)])

/-! ## Shared helper lemmas -/

/-- The percentage transform always lands in [0, 100]. -/
theorem signalStrengthPercentage_bounds (dbm : Int) :
    0 ≤ signalStrengthPercentage dbm ∧ signalStrengthPercentage dbm ≤ 100 := by
  unfold signalStrengthPercentage
  split
  · omega
  · split <;> omega
/-- Explicit form of `Info.from_dict` when the raw `signalStrength`
value is the integer `n` (in particular when the field is absent and
the default −100 applies). -/
theorem from_dict_eq (device_id : String) (data : List (String × Json)) (n : Int)
    (h : jGet data "signalStrength" (Json.num (-100)) = Json.num n) :
    Info.from_dict device_id data = some
      { device_id := device_id
        «on» := (jGet data "switch" Json.null).eqStr STATE_ON
        ota_unlock := jGet data "otaUnlock" (Json.bool false)
        power_on_state := if (jGet data "startup" (Json.str STATE_OFF)).eqStr STATE_STAY
            then Json.str STATE_RESTORE else jGet data "startup" (Json.str STATE_OFF)
        pulse_width := jGet data "pulseWidth" (Json.num 0)
        pulse := (jGet data "pulse" Json.null).eqStr STATE_ON
        signal_strength_percentage := signalStrengthPercentage n
        signal_strength := Json.num n
        ssid := jGet data "ssid" (Json.str "") } := by
  unfold Info.from_dict
  rw [h]
  rfl

/-- C3: the signal-strength-percent transform is 0 below −100 dBm, 100
above −50 dBm, and linear `2*(dbm+100)` in between; concretely −48 ↦
100, −60 ↦ 80, −100 ↦ 0; and a mapping without a `signalStrength` field
normalizes with dBm −100 and percent 0. -/
theorem signal_strength_percent_spec :
    (∀ dbm : Int,
      (dbm ≤ -100 → signalStrengthPercentage dbm = 0) ∧
      (-50 ≤ dbm → signalStrengthPercentage dbm = 100) ∧
      (-100 < dbm → dbm < -50 → signalStrengthPercentage dbm = 2 * (dbm + 100))) ∧
    signalStrengthPercentage (-48) = 100 ∧
    signalStrengthPercentage (-60) = 80 ∧
    signalStrengthPercentage (-100) = 0 ∧
    (∀ device_id data, jLookup data "signalStrength" = none →
      ∃ i, Info.from_dict device_id data = some i ∧
        i.signal_strength = Json.num (-100) ∧
        i.signal_strength_percentage = 0) := by
  refine ⟨fun dbm => ⟨?_, ?_, ?_⟩, by decide, by decide, by decide, ?_⟩
  · intro h; unfold signalStrengthPercentage; split <;> try split
    all_goals omega
  · intro h; unfold signalStrengthPercentage; split <;> try split
    all_goals omega
  · intro h1 h2; unfold signalStrengthPercentage; split <;> try split
    all_goals omega
  · intro device_id data h
    refine ⟨_, from_dict_eq device_id data (-100) (by simp [jGet, h]), rfl, ?_⟩
    rfl

/-- C3 witness. -/
theorem signal_strength_percent_spec_witness :
    signalStrengthPercentage (-60) = 2 * (-60 + 100) ∧
    (∃ i, Info.from_dict "dev" [] = some i ∧
      i.signal_strength = Json.num (-100) ∧ i.signal_strength_percentage = 0) :=
  ⟨(signal_strength_percent_spec.1 (-60)).2.2 (by decide) (by decide),
    signal_strength_percent_spec.2.2.2.2 "dev" [] rfl⟩
/-- C7: a response envelope with a non-zero integer `error` code raises
a `SonoffDIYError` (the spec's ProtocolError) whose message is the
taxonomy entry for that code; each of the eleven known codes maps to
its specific message and every other integer maps to the generic
unknown-error message; the lookup is total by construction. -/
theorem error_code_taxonomy :
    (∀ (fields : List (String × Json)) (e : Int),
      jLookup fields "error" = some (Json.num e) → e ≠ 0 →
      handleEnvelope (Json.obj fields) = .error (.protocol (describeErrorCode e))) ∧
    describeErrorCode 400 = "Request body is not valid JSON" ∧
    describeErrorCode 401 = "Unauthorized request" ∧
    describeErrorCode 403 = "OTA function is locked" ∧
    describeErrorCode 404 = "Device does not support requested Device ID" ∧
    describeErrorCode 408 = "Timeout while downloading firmware" ∧
    describeErrorCode 413 = "OTA firmware exceeds device allowed size limit" ∧
    describeErrorCode 422 = "Invalid request parameters" ∧
    describeErrorCode 424 = "Firmware download failed" ∧
    describeErrorCode 471 = "Firmware integrity check failed" ∧
    describeErrorCode 500 = "Device ID or API key is not authorized by vendor's OTA service" ∧
    describeErrorCode 503 = "Could not connect to vendor's OTA unlock service" ∧
    (∀ c : Int, c ∉ (ERROR_CODES.map Prod.fst) →
      describeErrorCode c = "Unknown error occurred") := by
  refine ⟨?_, by decide, by decide, by decide, by decide, by decide, by decide,
    by decide, by decide, by decide, by decide, by decide, ?_⟩
  · intro fields e he hne
    simp only [handleEnvelope]
    rw [he]
    have : (Json.num e).pyNeZero = true := by
      simp [Json.pyNeZero, hne]
    simp [this, describeErrorValue]
  · intro c hc
    simp [ERROR_CODES, List.map] at hc
    obtain ⟨h1, h2, h3, h4, h5, h6, h7, h8, h9, h10, h11⟩ := hc
    have e1 : (c == (400:Int)) = false := beq_eq_false_iff_ne.mpr h1
    have e2 : (c == (401:Int)) = false := beq_eq_false_iff_ne.mpr h2
    have e3 : (c == (403:Int)) = false := beq_eq_false_iff_ne.mpr h3
    have e4 : (c == (404:Int)) = false := beq_eq_false_iff_ne.mpr h4
    have e5 : (c == (408:Int)) = false := beq_eq_false_iff_ne.mpr h5
    have e6 : (c == (413:Int)) = false := beq_eq_false_iff_ne.mpr h6
    have e7 : (c == (422:Int)) = false := beq_eq_false_iff_ne.mpr h7
    have e8 : (c == (424:Int)) = false := beq_eq_false_iff_ne.mpr h8
    have e9 : (c == (471:Int)) = false := beq_eq_false_iff_ne.mpr h9
    have e10 : (c == (500:Int)) = false := beq_eq_false_iff_ne.mpr h10
    have e11 : (c == (503:Int)) = false := beq_eq_false_iff_ne.mpr h11
    simp [describeErrorCode, ERROR_CODES, List.lookup, e1, e2, e3, e4, e5, e6, e7, e8, e9, e10, e11]

/-- C7 witness: code 403 in an envelope yields its taxonomy message,
and an unknown code maps to the generic message. -/
theorem error_code_taxonomy_witness :
    handleEnvelope (Json.obj [("seq", Json.num 2), ("error", Json.num 403)])
      = .error (.protocol (describeErrorCode 403)) ∧
    describeErrorCode 999 = "Unknown error occurred" :=
  ⟨error_code_taxonomy.1 [("seq", Json.num 2), ("error", Json.num 403)] 403 rfl (by decide),
    error_code_taxonomy.2.2.2.2.2.2.2.2.2.2.2.2 999 (by decide)⟩
/-- C1 counterexample: `"stay"` is outside {on, off, restore}, yet
`power_on_state("stay")` passes validation and issues a "startup"
request carrying the wire value `"stay"` (here the transport then times
out, so the result is a connection error, not the validation error). -/
theorem power_on_state_stay_accepted :
    ("stay" ≠ STATE_ON ∧ "stay" ≠ STATE_OFF ∧ "stay" ≠ STATE_RESTORE) ∧
    (SonoffDIY.power_on_state "stay" Transport.timeout).1
      = [⟨"startup", [("startup", Json.str "stay")]⟩] ∧
    (SonoffDIY.power_on_state "stay" Transport.timeout).2
      ≠ .error (.protocol "Invalid startup value, accepted: on, off, restore") := by
  refine ⟨⟨by decide, by decide, by decide⟩, rfl, ?_⟩
  intro h
  exact PyErr.noConfusion (Except.error.inj h)

/-- C1 (amended): for every state string outside
{on, off, restore, stay}, `power_on_state` raises the validation
`SonoffDIYError` and issues no network request; `"stay"` is a fourth
accepted value, passed through to the wire unchanged. -/
theorem power_on_state_invalid_rejected (state : String) (t : Transport)
    (h1 : state ≠ STATE_ON) (h2 : state ≠ STATE_OFF)
    (h3 : state ≠ STATE_RESTORE) (h4 : state ≠ STATE_STAY) :
    SonoffDIY.power_on_state state t
      = ([], .error (.protocol "Invalid startup value, accepted: on, off, restore")) := by
  unfold SonoffDIY.power_on_state
  rw [if_neg]
  rintro (h | h | h | h) <;> simp_all

/-- C1 witness: `power_on_state("bogus")` is rejected with the
validation error and sends nothing, whatever the transport would do. -/
theorem power_on_state_invalid_rejected_witness :
    SonoffDIY.power_on_state "bogus" Transport.timeout
      = ([], .error (.protocol "Invalid startup value, accepted: on, off, restore")) :=
  power_on_state_invalid_rejected "bogus" Transport.timeout
    (by decide) (by decide) (by decide) (by decide)
/-- Whenever `Info.from_dict` succeeds, its `power_on_state` field is
the raw `startup` value (default "off") with the vendor token "stay"
renormalized to "restore". -/
theorem from_dict_power_on_state (device_id : String) (data : List (String × Json))
    (i : Info) (h : Info.from_dict device_id data = some i) :
    i.power_on_state = (if (jGet data "startup" (Json.str STATE_OFF)).eqStr STATE_STAY
      then Json.str STATE_RESTORE else jGet data "startup" (Json.str STATE_OFF)) := by
  unfold Info.from_dict at h
  split at h
  · cases h
  · cases h
    rfl

/-- C4: the snapshot's `power_on_state` never holds the raw vendor
value "stay"; normalizing a mapping with `startup:"stay"` yields
"restore"; and writing "restore" sends the wire value "stay" in the
"startup" payload while "on" and "off" pass through unchanged. -/
theorem startup_stay_round_trip :
    (∀ device_id data i, Info.from_dict device_id data = some i →
      i.power_on_state ≠ Json.str STATE_STAY) ∧
    (∀ device_id data i, jLookup data "startup" = some (Json.str "stay") →
      Info.from_dict device_id data = some i →
      i.power_on_state = Json.str STATE_RESTORE) ∧
    (∀ t, (SonoffDIY.power_on_state STATE_RESTORE t).1
      = [⟨"startup", [("startup", Json.str STATE_STAY)]⟩]) ∧
    (∀ t, (SonoffDIY.power_on_state STATE_ON t).1
      = [⟨"startup", [("startup", Json.str STATE_ON)]⟩]) ∧
    (∀ t, (SonoffDIY.power_on_state STATE_OFF t).1
      = [⟨"startup", [("startup", Json.str STATE_OFF)]⟩]) := by
  refine ⟨?_, ?_, fun t => rfl, fun t => rfl, fun t => rfl⟩
  · intro device_id data i h
    rw [from_dict_power_on_state device_id data i h]
    rcases hst : (jGet data "startup" (Json.str STATE_OFF)).eqStr STATE_STAY
    · simp only [Bool.false_eq_true, if_false]
      intro heq
      rw [heq] at hst
      simp [Json.eqStr, STATE_STAY] at hst
    · simp [STATE_RESTORE, STATE_STAY]
  · intro device_id data i hst h
    rw [from_dict_power_on_state device_id data i h]
    simp [jGet, hst, Json.eqStr, STATE_STAY]

/-- C4 witness: the end-to-end round trip at concrete values. -/
theorem startup_stay_round_trip_witness :
    (∃ i, Info.from_dict "dev" [("startup", Json.str "stay")] = some i ∧
      i.power_on_state = Json.str STATE_RESTORE ∧ i.power_on_state ≠ Json.str STATE_STAY) ∧
    (SonoffDIY.power_on_state STATE_RESTORE Transport.timeout).1
      = [⟨"startup", [("startup", Json.str STATE_STAY)]⟩] := by
  refine ⟨⟨_, rfl, ?_, ?_⟩, startup_stay_round_trip.2.2.1 Transport.timeout⟩
  · exact startup_stay_round_trip.2.1 "dev" [("startup", Json.str "stay")] _ rfl rfl
  · exact startup_stay_round_trip.1 "dev" [("startup", Json.str "stay")] _ rfl
/-- C5: in a success envelope (`error` = 0), a string-valued `data`
field is re-parsed as JSON and the parsed value returned, an
object-valued `data` field is returned directly, and an absent `data`
field yields an absent result rather than an error.  (`pyOptional`
folds the parsed JSON value `null` into Python's `None`.) -/
theorem request_data_handling (fields : List (String × Json))
    (he : jLookup fields "error" = some (Json.num 0)) :
    (jLookup fields "data" = none → handleEnvelope (Json.obj fields) = .ok none) ∧
    (∀ s d, jLookup fields "data" = some (Json.str s) → Json.parse s = some d →
      handleEnvelope (Json.obj fields) = .ok (pyOptional d)) ∧
    (∀ ms, jLookup fields "data" = some (Json.obj ms) →
      handleEnvelope (Json.obj fields) = .ok (some (Json.obj ms))) := by
  refine ⟨?_, ?_, ?_⟩
  · intro hd
    simp [handleEnvelope, he, hd, Json.pyNeZero]
  · intro s d hd hp
    simp [handleEnvelope, he, hd, hp, Json.pyNeZero]
  · intro ms hd
    simp [handleEnvelope, he, hd, Json.pyNeZero, pyOptional]

/-- C5 witness: `data = "\x7b\"test\": \"ok\"\x7d"` (a double-encoded
string) is re-parsed into the object `\x7btest: ok\x7d`; the same
envelope without `data` yields an absent result. -/
theorem request_data_handling_witness :
    handleEnvelope (Json.obj [("error", Json.num 0),
        ("data", Json.str (Json.render (Json.obj [("test", Json.str "ok")])))])
      = .ok (some (Json.obj [("test", Json.str "ok")])) ∧
    handleEnvelope (Json.obj [("error", Json.num 0)]) = .ok none :=
  ⟨(request_data_handling [("error", Json.num 0),
        ("data", Json.str (Json.render (Json.obj [("test", Json.str "ok")])))] rfl).2.1
      (Json.render (Json.obj [("test", Json.str "ok")]))
      (Json.obj [("test", Json.str "ok")]) rfl rfl,
    (request_data_handling [("error", Json.num 0)] rfl).1 rfl⟩

/-- C6 counterexample: a response with HTTP status 304 — non-2xx — a
JSON content type and a valid success envelope is parsed and its data
returned: `raise_for_status` only fires at status ≥ 400, so "every
non-2xx status yields an error" fails at 304. -/
theorem non_error_status_passthrough :
    sonoffRequest (.response ⟨304, "application/json", doubleEncodedOkBody⟩)
      = .ok (some (Json.obj [("test", Json.str "ok")])) ∧
    ¬ (200 ≤ 304 ∧ 304 < 300) := ⟨rfl, by decide⟩

/-- C6 (amended): for every response with status ≥ 400 (the statuses
`raise_for_status` rejects; not all non-2xx), or whose content type
does not contain "application/json", or whose body parses to an object
without an `error` member, `_request` raises a
`SonoffDIYConnectionError` or `SonoffDIYError` and never returns data. -/
theorem request_malformed_response_rejected (r : HttpResponse)
    (h : 400 ≤ r.status ∨ strContains r.contentType "application/json" = false ∨
      (∃ fs, Json.parse r.body = some (Json.obj fs) ∧ jLookup fs "error" = none)) :
    ∃ msg, sonoffRequest (.response r) = .error (.connection msg) ∨
      sonoffRequest (.response r) = .error (.protocol msg) := by
  simp only [sonoffRequest]
  by_cases h4 : 400 ≤ r.status
  · rw [if_pos h4]
    exact ⟨_, .inl rfl⟩
  · rw [if_neg h4]
    by_cases hct : strContains r.contentType "application/json"
    · rw [if_neg (by simp [hct])]
      rcases h with h | h | ⟨fs, hp, hfs⟩
      · exact absurd h h4
      · rw [hct] at h
        cases h
      · rw [hp]
        simp only [handleEnvelope, hfs]
        exact ⟨_, .inr rfl⟩
    · rw [if_pos (by simpa using hct)]
      exact ⟨_, .inr rfl⟩

/-- C6 witness: an HTTP 500 response is rejected with a typed error. -/
theorem request_malformed_response_rejected_witness :
    (400 ≤ 500) ∧
    (∃ msg, sonoffRequest (.response ⟨500, "application/json", "irrelevant"⟩)
        = .error (.connection msg) ∨
      sonoffRequest (.response ⟨500, "application/json", "irrelevant"⟩)
        = .error (.protocol msg)) :=
  ⟨by decide, request_malformed_response_rejected ⟨500, "application/json", "irrelevant"⟩
    (Or.inl (by decide))⟩
/-- C2 counterexample: the "info" call fails — its double-encoded
`data` string is malformed JSON, so `json.loads` raises — yet the
previously cached snapshot is retained, because `except SonoffDIYError`
does not catch `json.JSONDecodeError`. -/
theorem update_info_decode_error_keeps_stale :
    SonoffDIY.update_info "dev" (some dummyInfo)
      (.response ⟨200, "application/json", malformedDataBody⟩) Transport.timeout
      = ([infoRequest], some dummyInfo, .error .jsonDecode) ∧
    some dummyInfo ≠ (none : Option Info) := ⟨rfl, by simp⟩

/-- C2 (amended): whenever either underlying call of `update_info`
fails with an exception of the `SonoffDIYError` family (connection or
protocol error) — rather than "for any reason" — the cached snapshot is
cleared before the error propagates. -/
theorem update_info_sonoff_failure_clears (device_id : String) (st : Option Info)
    (tInfo tSignal : Transport) (reqs : List SentRequest) (newSt : Option Info)
    (e : PyErr)
    (h : SonoffDIY.update_info device_id st tInfo tSignal = (reqs, newSt, .error e))
    (hs : e.isSonoffDIYError = true) :
    newSt = none := by
  unfold SonoffDIY.update_info at h
  split at h
  · simp only [Prod.mk.injEq, Except.error.injEq] at h
    obtain ⟨-, h2, h3⟩ := h
    rw [h3, hs] at h2
    simpa using h2.symm
  · split at h
    · simp only [Prod.mk.injEq, Except.error.injEq] at h
      obtain ⟨-, h2, h3⟩ := h
      rw [h3, hs] at h2
      simpa using h2.symm
    · split at h
      · simp only [Prod.mk.injEq, Except.error.injEq] at h
        exact h.2.1.symm
      · split at h
        · simp only [Prod.mk.injEq, Except.error.injEq] at h
          obtain ⟨-, -, h3⟩ := h
          rw [← h3] at hs
          exact absurd hs (by decide)
        · split at h
          · simp only [Prod.mk.injEq, Except.error.injEq] at h
            obtain ⟨-, -, h3⟩ := h
            rw [← h3] at hs
            exact absurd hs (by decide)
          · simp only [Prod.mk.injEq] at h
            cases h.2.2

/-- C2 witness: a timeout on the first call clears the cache. -/
theorem update_info_sonoff_failure_clears_witness :
    SonoffDIY.update_info "dev" (some dummyInfo) Transport.timeout Transport.timeout
      = ([infoRequest], none,
        .error (.connection "Timeout occurred while connecting to Sonoff DIY device")) ∧
    (none : Option Info) = none :=
  ⟨rfl, update_info_sonoff_failure_clears "dev" (some dummyInfo)
    Transport.timeout Transport.timeout [infoRequest] none
    (.connection "Timeout occurred while connecting to Sonoff DIY device") rfl rfl⟩

/-- C8 counterexample: a raw mapping with integer `pulseWidth` −5
normalizes to a snapshot whose `pulse_width` is −5, violating the
claimed `pulseWidthMs ≥ 0` invariant (the code never clamps). -/
theorem pulse_width_negative_passthrough :
    (Info.from_dict "dev" [("pulseWidth", Json.num (-5))]).map Info.pulse_width
      = some (Json.num (-5)) ∧ (-5 : Int) < 0 := ⟨rfl, by decide⟩

/-- C8 (amended): on any mapping whose `signalStrength` (when present)
is an integer, normalization succeeds, the percentage lands in
[0, 100], a missing `pulseWidth` defaults to 0, and a present
non-negative integer `pulseWidth` stays a non-negative integer —
but a negative input `pulseWidth` is passed through, not clamped. -/
theorem from_dict_invariants (device_id : String) (data : List (String × Json))
    (hss : ∀ v, jLookup data "signalStrength" = some v → ∃ n, v = Json.num n) :
    ∃ i, Info.from_dict device_id data = some i ∧
      0 ≤ i.signal_strength_percentage ∧ i.signal_strength_percentage ≤ 100 ∧
      (jLookup data "pulseWidth" = none → i.pulse_width = Json.num 0) ∧
      (∀ n, jLookup data "pulseWidth" = some (Json.num n) → 0 ≤ n →
        ∃ m, i.pulse_width = Json.num m ∧ 0 ≤ m) := by
  rcases hv : jLookup data "signalStrength" with _ | v
  · refine ⟨_, from_dict_eq device_id data (-100) (by simp [jGet, hv]), ?_, ?_, ?_, ?_⟩
    · exact (signalStrengthPercentage_bounds (-100)).1
    · exact (signalStrengthPercentage_bounds (-100)).2
    · intro hpw
      simp [jGet, hpw]
    · intro n hpw hn
      exact ⟨n, by simp [jGet, hpw], hn⟩
  · obtain ⟨n, rfl⟩ := hss v hv
    refine ⟨_, from_dict_eq device_id data n (by simp [jGet, hv]), ?_, ?_, ?_, ?_⟩
    · exact (signalStrengthPercentage_bounds n).1
    · exact (signalStrengthPercentage_bounds n).2
    · intro hpw
      simp [jGet, hpw]
    · intro m hpw hm
      exact ⟨m, by simp [jGet, hpw], hm⟩

/-- C8 witness: a typical mapping normalizes with all invariants. -/
theorem from_dict_invariants_witness :
    ∃ i, Info.from_dict "dev" [("pulseWidth", Json.num 1500)] = some i ∧
      0 ≤ i.signal_strength_percentage ∧ i.signal_strength_percentage ≤ 100 ∧
      (jLookup [("pulseWidth", Json.num 1500)] "pulseWidth" = none →
        i.pulse_width = Json.num 0) ∧
      (∀ n, jLookup [("pulseWidth", Json.num 1500)] "pulseWidth" = some (Json.num n) →
        0 ≤ n → ∃ m, i.pulse_width = Json.num m ∧ 0 ≤ m) :=
  from_dict_invariants "dev" [("pulseWidth", Json.num 1500)]
    (fun v h => by
      rw [show jLookup [("pulseWidth", Json.num 1500)] "signalStrength" = none from rfl] at h
      cases h)
/-- The `update_info` operation issues either only the "info" request (first call
raised) or both requests, never anything else. -/
theorem update_info_reqs (device_id : String) (st : Option Info)
    (tInfo tSignal : Transport) :
    (SonoffDIY.update_info device_id st tInfo tSignal).1 = [infoRequest] ∨
    (SonoffDIY.update_info device_id st tInfo tSignal).1
      = [infoRequest, signalStrengthRequest] := by
  unfold SonoffDIY.update_info
  split
  · exact .inl rfl
  · split
    · exact .inr rfl
    · split
      · exact .inr rfl
      · split
        · exact .inr rfl
        · split
          · exact .inr rfl
          · exact .inr rfl

/-- A successful `update_info` caches exactly the snapshot it returns. -/
theorem update_info_ok_state (device_id : String) (st : Option Info)
    (tInfo tSignal : Transport) (reqs : List SentRequest) (newSt : Option Info)
    (i : Info)
    (h : SonoffDIY.update_info device_id st tInfo tSignal = (reqs, newSt, .ok i)) :
    newSt = some i := by
  unfold SonoffDIY.update_info at h
  split at h
  · exact Except.noConfusion (congrArg (fun p => p.2.2) h)
  · split at h
    · exact Except.noConfusion (congrArg (fun p => p.2.2) h)
    · split at h
      · exact Except.noConfusion (congrArg (fun p => p.2.2) h)
      · split at h
        · exact Except.noConfusion (congrArg (fun p => p.2.2) h)
        · split at h
          · exact Except.noConfusion (congrArg (fun p => p.2.2) h)
          · simp only [Prod.mk.injEq, Except.ok.injEq] at h
            obtain ⟨-, h2, h3⟩ := h
            rw [← h2, h3]
/-- C9: when the "info" call succeeds but carries no data, `update_info`
still issues the "signal_strength" request (the no-data check sits
after both calls); once the second call also succeeds, the cache is
cleared and the no-data protocol error is raised. -/
theorem update_info_no_data_after_both_requests (device_id : String)
    (st : Option Info) (tInfo tSignal : Transport)
    (h : sonoffRequest tInfo = .ok none) :
    (SonoffDIY.update_info device_id st tInfo tSignal).1
      = [infoRequest, signalStrengthRequest] ∧
    (∀ s, sonoffRequest tSignal = .ok s →
      SonoffDIY.update_info device_id st tInfo tSignal
        = ([infoRequest, signalStrengthRequest], none,
          .error (.protocol "Did not receive data from Sonoff DIY device"))) := by
  constructor
  · unfold SonoffDIY.update_info
    rw [h]
    rcases h2 : sonoffRequest tSignal with e | s <;> rfl
  · intro s h2
    unfold SonoffDIY.update_info
    rw [h, h2]

/-- C9 witness: both calls succeed with empty (data-less) envelopes. -/
theorem update_info_no_data_after_both_requests_witness :
    sonoffRequest (.response ⟨200, "application/json", noDataOkBody⟩) = .ok none ∧
    SonoffDIY.update_info "dev" (some dummyInfo)
      (.response ⟨200, "application/json", noDataOkBody⟩)
      (.response ⟨200, "application/json", noDataOkBody⟩)
      = ([infoRequest, signalStrengthRequest], none,
        .error (.protocol "Did not receive data from Sonoff DIY device")) :=
  ⟨rfl, (update_info_no_data_after_both_requests "dev" (some dummyInfo)
    (.response ⟨200, "application/json", noDataOkBody⟩)
    (.response ⟨200, "application/json", noDataOkBody⟩) rfl).2 none rfl⟩

/-- C10: `pulse_width` first refreshes the snapshot; if that fails the
error propagates unchanged and no "pulse" request is issued; if it
succeeds, the "pulse" request carries `pulse = "on"` exactly when the
freshly fetched snapshot has pulse mode enabled, together with the
requested width. -/
theorem pulse_width_uses_fresh_state (device_id : String) (st : Option Info)
    (tInfo tSignal tPulse : Transport) (w : Int) :
    (∀ reqs newSt e,
      SonoffDIY.update_info device_id st tInfo tSignal = (reqs, newSt, .error e) →
      SonoffDIY.pulse_width device_id st tInfo tSignal tPulse w
          = (reqs, newSt, .error e) ∧
        ∀ r ∈ reqs, r.uri ≠ "pulse") ∧
    (∀ reqs newSt i,
      SonoffDIY.update_info device_id st tInfo tSignal = (reqs, newSt, .ok i) →
      SonoffDIY.pulse_width device_id st tInfo tSignal tPulse w
        = (reqs ++ [⟨"pulse",
            [("pulse", Json.str (if i.pulse then STATE_ON else STATE_OFF)),
             ("pulse_width", Json.num w)]⟩],
          newSt, (sonoffRequest tPulse).map (fun _ => ()))) := by
  constructor
  · intro reqs newSt e h
    constructor
    · unfold SonoffDIY.pulse_width
      rw [h]
    · have hr := update_info_reqs device_id st tInfo tSignal
      rw [h] at hr
      intro r hrr
      rcases hr with hr | hr
      · replace hr : reqs = [infoRequest] := hr
        subst hr
        simp only [List.mem_singleton] at hrr
        subst hrr
        decide
      · replace hr : reqs = [infoRequest, signalStrengthRequest] := hr
        subst hr
        simp at hrr
        rcases hrr with rfl | rfl <;> decide
  · intro reqs newSt i h
    have hn := update_info_ok_state device_id st tInfo tSignal reqs newSt i h
    unfold SonoffDIY.pulse_width
    rw [h, hn]

/-- C10 witness: a timed-out snapshot refresh propagates unchanged and
the single request issued is not a "pulse" request. -/
theorem pulse_width_uses_fresh_state_witness :
    SonoffDIY.pulse_width "dev" (some dummyInfo)
      Transport.timeout Transport.timeout Transport.timeout 1000
      = ([infoRequest], none,
        .error (.connection "Timeout occurred while connecting to Sonoff DIY device")) ∧
    infoRequest.uri ≠ "pulse" :=
  have h := (pulse_width_uses_fresh_state "dev" (some dummyInfo)
    Transport.timeout Transport.timeout Transport.timeout 1000).1
    [infoRequest] none
    (.connection "Timeout occurred while connecting to Sonoff DIY device") rfl
  ⟨h.1, h.2 infoRequest (by simp)⟩
